import Mathlib

/-!
Shallow embedding of the Gemini-Runner game core: the economy/progression
state machine (`src/store.ts`) and the per-tick collision/eviction pass and
spawn-probability computation of the level manager
(`src/components/World/LevelManager.tsx`).

JavaScript numbers are modelled as exact rationals (`ℚ`); counters as `ℕ`.
`Math.floor` becomes `Int.floor`; `Math.min` becomes `min`.  The
`targetLevels` field, which may be `Infinity` in the source, is modelled as
an explicit sum type.  Side effects outside the store state (DOM events,
`setTimeout` timers, audio) are outside the state and are not modelled.
-/

namespace GeminiRunner

/-- `GameStatus` enum from `types.ts` (values used by `store.ts`). -/
inductive GameStatus where
  | MENU
  | LEVEL_SELECT
  | PLAYING
  | SHOP
  | GAME_OVER
  | VICTORY
  deriving DecidableEq, Repr

/-- `GameMode` enum from `types.ts` (values used by `store.ts`). -/
inductive GameMode where
  | NORMAL
  | ASSIST
  | CHEAT
  deriving DecidableEq, Repr

/-- The `targetLevels` field: a finite goal level count, or `Infinity`
(endless mode). -/
inductive TargetLevels where
  | finite (n : ℕ)
  | infinite
  deriving DecidableEq, Repr

/-- `level < targetLevels` as evaluated in `collectLetter` (a comparison
against `Infinity` is always true). -/
def TargetLevels.levelBelow (level : ℕ) : TargetLevels → Bool
  | .finite n => level < n
  | .infinite => true

/-- The fields of the zustand `GameState` store (`store.ts`) that the
game-logic operations read or write. -/
structure GameState where
  status : GameStatus
  gameMode : GameMode
  targetLevels : TargetLevels
  score : ℚ
  currency : ℚ
  lives : ℕ
  maxLives : ℕ
  speed : ℚ
  collectedLetters : List ℤ
  level : ℕ
  laneCount : ℕ
  gemsCollected : ℕ
  hasDoubleJump : Bool
  hasImmortality : Bool
  isImmortalityActive : Bool
  isShopInvincible : Bool
  magnetLevel : ℕ
  shieldCount : ℕ
  hasTimeWarp : Bool
  hasGemBooster : Bool
  hasLuckCharm : Bool
  hasSonicBlast : Bool
  hasDrone : Bool
  hasRevive : Bool
  hasDiscount : Bool
  deriving DecidableEq, Repr

/-- `GEMINI_TARGET` from `store.ts`: the fixed 6-glyph target sequence. -/
def GEMINI_TARGET : List Char := ['G', 'E', 'M', 'I', 'N', 'I']

/-- `takeDamage` from `store.ts`.  The `setTimeout` clearing
`isImmortalityActive` after 3 s and the dispatched blast event are outside
the store state and not modelled. -/
def takeDamage (s : GameState) : GameState :=
  if s.gameMode = GameMode.CHEAT ∨ s.isImmortalityActive ∨ s.isShopInvincible then s
  else if s.shieldCount > 0 then { s with shieldCount := s.shieldCount - 1 }
  else if s.lives > 1 then { s with lives := s.lives - 1 }
  else if s.hasRevive then
    { s with lives := s.maxLives, hasRevive := false, isImmortalityActive := true }
  else if s.targetLevels = TargetLevels.infinite then
    { s with lives := 0, status := GameStatus.VICTORY, speed := 0 }
  else
    { s with lives := 0, status := GameStatus.GAME_OVER, speed := 0 }

/-- `collectGem` from `store.ts`. -/
def collectGem (s : GameState) (value : ℚ) (isHealing : Bool) : GameState :=
  let levelMultiplier : ℚ := 1 + ((s.level : ℚ) - 1) * 0.2
  let boostMultiplier : ℚ := if s.hasGemBooster then 2 else 1
  let finalValue : ℤ := ⌊value * levelMultiplier * boostMultiplier⌋
  let s1 := { s with
    score := s.score + (finalValue : ℚ) * 10
    currency := s.currency + (finalValue : ℚ)
    gemsCollected := s.gemsCollected + 1 }
  if isHealing ∧ s.lives < s.maxLives then { s1 with lives := s.lives + 1 } else s1

/-- `advanceLevel` from `store.ts`.  `runSpeedBase` stands for the
`RUN_SPEED_BASE` constant imported from `types.ts`. -/
def advanceLevel (runSpeedBase : ℚ) (s : GameState) : GameState :=
  { s with
    level := s.level + 1
    laneCount := min (s.laneCount + 2) 9
    status := GameStatus.PLAYING
    speed := s.speed + runSpeedBase * 0.10
    collectedLetters := [] }

/-- `collectLetter` from `store.ts`.  `runSpeedBase` stands for the
`RUN_SPEED_BASE` constant imported from `types.ts`. -/
def collectLetter (runSpeedBase : ℚ) (s : GameState) (index : ℤ) : GameState :=
  if index ∈ s.collectedLetters then s
  else
    let newLetters := s.collectedLetters ++ [index]
    let s1 := { s with
      collectedLetters := newLetters
      speed := s.speed + runSpeedBase * 0.025 }
    if newLetters.length = GEMINI_TARGET.length then
      if s1.targetLevels = TargetLevels.infinite ∨ s1.targetLevels.levelBelow s1.level then
        advanceLevel runSpeedBase s1
      else
        { s1 with status := GameStatus.VICTORY, score := s1.score + 10000 }
    else s1

/-- The type-specific unlock/increment applied by the `switch` statement of
`buyItem` (`store.ts`), after the cost has been debited. -/
def applyPurchase (s : GameState) (itemType : String) : GameState :=
  if itemType = "DOUBLE_JUMP" then { s with hasDoubleJump := true }
  else if itemType = "MAX_LIFE" then
    if s.maxLives < 10 then { s with maxLives := s.maxLives + 1, lives := s.lives + 1 } else s
  else if itemType = "HEAL" then { s with lives := min (s.lives + 1) s.maxLives }
  else if itemType = "IMMORTAL" then { s with hasImmortality := true }
  else if itemType = "MAGNET" then { s with magnetLevel := min (s.magnetLevel + 1) 5 }
  else if itemType = "SHIELD" then { s with shieldCount := min (s.shieldCount + 1) 3 }
  else if itemType = "TIME_WARP" then { s with hasTimeWarp := true }
  else if itemType = "GEM_BOOSTER" then { s with hasGemBooster := true }
  else if itemType = "LUCK_CHARM" then { s with hasLuckCharm := true }
  else if itemType = "SONIC_BLAST" then { s with hasSonicBlast := true }
  else if itemType = "DRONE" then { s with hasDrone := true }
  else if itemType = "REVIVE" then { s with hasRevive := true }
  else if itemType = "DISCOUNT" then { s with hasDiscount := true }
  else s

/-- `buyItem` from `store.ts`: returns the updated state and the boolean
returned to the caller. -/
def buyItem (s : GameState) (itemType : String) (cost : ℚ) : GameState × Bool :=
  if itemType = "EXCHANGE" then
    if s.currency > 0 then
      ({ s with score := s.score + s.currency * 100, currency := 0 }, true)
    else (s, false)
  else if itemType = "HEAL" ∧ s.lives ≥ s.maxLives then (s, false)
  else if itemType = "MAX_LIFE" ∧ s.maxLives ≥ 10 then (s, false)
  else if itemType = "SHIELD" ∧ s.shieldCount ≥ 3 then (s, false)
  else if itemType = "MAGNET" ∧ s.magnetLevel ≥ 5 then (s, false)
  else if itemType = "DOUBLE_JUMP" ∧ s.hasDoubleJump then (s, false)
  else if itemType = "IMMORTAL" ∧ s.hasImmortality then (s, false)
  else if itemType = "TIME_WARP" ∧ s.hasTimeWarp then (s, false)
  else if itemType = "GEM_BOOSTER" ∧ s.hasGemBooster then (s, false)
  else if itemType = "LUCK_CHARM" ∧ s.hasLuckCharm then (s, false)
  else if itemType = "SONIC_BLAST" ∧ s.hasSonicBlast then (s, false)
  else if itemType = "DRONE" ∧ s.hasDrone then (s, false)
  else if itemType = "REVIVE" ∧ s.hasRevive then (s, false)
  else if itemType = "DISCOUNT" ∧ s.hasDiscount then (s, false)
  else if s.currency ≥ cost then
    (applyPurchase { s with currency := s.currency - cost } itemType, true)
  else (s, false)

/-! ## Level manager (`src/components/World/LevelManager.tsx`)

The per-entity collision/eviction pass of the simulation tick
(`useFrame`, the loop over `currentObjects`) and the spawn planner's
obstacle-probability computation.  Entity fields that only feed the
presentation layer (`id`, `color`, `value`, `points`, `targetIndex`,
`hasFired`) are omitted: they do not enter the movement, collision or
eviction decisions modelled here.  The store operations invoked on
collection, the alien-AI missile spawning, the magnet attraction of gems
(which only moves lane/height coordinates of GEM entities), the jump-assist
scan and the drone pre-pass are likewise outside this pass; the
`player-hit` event dispatch is modelled as the `hit` flag. -/

/-- `ObjectType` enum from `types.ts` (values used by `LevelManager.tsx`). -/
inductive ObjectType where
  | OBSTACLE
  | ALIEN
  | MISSILE
  | GEM
  | LETTER
  | SHOP_PORTAL
  deriving DecidableEq, Repr

/-- A world entity, with the fields entering the movement/collision/eviction
logic: its type tag, position (lane-axis, height-axis, travel-axis) and
`active` flag. -/
structure GameObject where
  type : ObjectType
  posX : ℚ
  posY : ℚ
  posZ : ℚ
  active : Bool
  deriving DecidableEq, Repr

/-- `OBSTACLE_HEIGHT` constant from `LevelManager.tsx`. -/
def OBSTACLE_HEIGHT : ℚ := 1.6

/-- The `isDamageSource` test of the collision block: OBSTACLE, ALIEN and
MISSILE are the hazard classes. -/
def isDamageSource : ObjectType → Bool
  | ObjectType.OBSTACLE => true
  | ObjectType.ALIEN => true
  | ObjectType.MISSILE => true
  | _ => false

/-- Outcome of processing one entity in the tick's collision/eviction pass:
the (possibly deactivated) entity, whether a `player-hit` event was
dispatched, and whether the entity is kept in the registry. -/
structure EntityTickResult where
  obj : GameObject
  hit : Bool
  keep : Bool
  deriving DecidableEq, Repr

/-- The collision-resolution and eviction step for one entity
(`LevelManager.tsx`, the `keep`/`inZZone` block of the per-entity loop).
`obj` carries the already-moved position; `prevZ` is its travel-axis
position before this tick's movement.  `removeDist` stands for the
`REMOVE_DISTANCE` constant imported from `types.ts`. -/
def collideAndEvict (removeDist px py pz prevZ : ℚ) (obj : GameObject) :
    EntityTickResult :=
  let zThreshold : ℚ := 2
  let r : EntityTickResult :=
    if obj.active then
      if obj.type = ObjectType.SHOP_PORTAL then
        if |obj.posZ - pz| < 2 then ⟨{ obj with active := false }, false, false⟩
        else ⟨obj, false, true⟩
      else if prevZ < pz + zThreshold ∧ obj.posZ > pz - zThreshold then
        if |obj.posX - px| < 0.9 then
          if isDamageSource obj.type then
            let playerBottom := py
            let playerTop := py + 1.8
            let objBottom : ℚ :=
              if obj.type = ObjectType.OBSTACLE then 0
              else if obj.type = ObjectType.MISSILE then 0.5
              else obj.posY - 0.5
            let objTop : ℚ :=
              if obj.type = ObjectType.OBSTACLE then OBSTACLE_HEIGHT
              else if obj.type = ObjectType.MISSILE then 1.5
              else obj.posY + 0.5
            if playerBottom < objTop ∧ playerTop > objBottom then
              ⟨{ obj with active := false }, true, true⟩
            else ⟨obj, false, true⟩
          else
            if |obj.posY - py| < 2.5 then ⟨{ obj with active := false }, false, true⟩
            else ⟨obj, false, true⟩
        else ⟨obj, false, true⟩
      else ⟨obj, false, true⟩
    else ⟨obj, false, true⟩
  -- the collision block only ever clears `active`, so the eviction test
  -- reads the same travel position the entity was moved to
  if obj.posZ > removeDist then { r with keep := false } else r

/-- The standard movement step of the per-entity loop: the travel-axis
position advances by `dist`, plus `missileExtra` for missiles.  Returns the
pre-movement travel position (`prevZ`) and the moved entity. -/
def moveEntity (dist missileExtra : ℚ) (obj : GameObject) : ℚ × GameObject :=
  let moveAmount := if obj.type = ObjectType.MISSILE then dist + missileExtra else dist
  (obj.posZ, { obj with posZ := obj.posZ + moveAmount })

/-- One movement + collision + eviction pass over the registry, keeping the
entities whose `keep` flag survives and counting dispatched `player-hit`
events. -/
def tickRegistry (removeDist px py pz dist missileExtra : ℚ) :
    List GameObject → List GameObject × ℕ
  | [] => ([], 0)
  | obj :: rest =>
    let pm := moveEntity dist missileExtra obj
    let r := collideAndEvict removeDist px py pz pm.1 pm.2
    let restResult := tickRegistry removeDist px py pz dist missileExtra rest
    ((if r.keep then [r.obj] else []) ++ restResult.1,
      (if r.hit then 1 else 0) + restResult.2)

/-- The spawn planner's obstacle-path probability threshold
(`LevelManager.tsx`, the non-letter spawn branch): `0.20 + level * 0.02`,
capped at `0.6`, multiplied by `0.8` when the luck charm is owned. -/
def obstacleProb (level : ℕ) (hasLuckCharm : Bool) : ℚ :=
  let baseObstacleProb : ℚ := 0.20 + (level : ℚ) * 0.02
  let p := min 0.6 baseObstacleProb
  if hasLuckCharm then p * 0.8 else p

/-! ## Auxiliary definitions for the statements -/

/-- Lower edge of a hazard's vertical box in the collision test: obstacles
span from the ground, missiles occupy a narrow mid band from 0.5, other
hazards a box around their center. -/
def hazardVertBottom (obj : GameObject) : ℚ :=
  if obj.type = ObjectType.OBSTACLE then 0
  else if obj.type = ObjectType.MISSILE then 0.5
  else obj.posY - 0.5

/-- Upper edge of a hazard's vertical box in the collision test: obstacles
reach `OBSTACLE_HEIGHT`, missiles 1.5, other hazards a box around their
center. -/
def hazardVertTop (obj : GameObject) : ℚ :=
  if obj.type = ObjectType.OBSTACLE then OBSTACLE_HEIGHT
  else if obj.type = ObjectType.MISSILE then 1.5
  else obj.posY + 0.5

/-- An active obstacle three units ahead of the player plane. -/
def c5Obstacle : GameObject :=
  { type := ObjectType.OBSTACLE, posX := 0, posY := 0.8, posZ := -3, active := true }

/-- An already-deactivated gem slightly behind the player plane. -/
def inactiveGem : GameObject :=
  { type := ObjectType.GEM, posX := 0, posY := 1, posZ := 1, active := false }

/-- An active obstacle whose travel position already crossed far past the
player within one tick. -/
def c6Obstacle : GameObject :=
  { type := ObjectType.OBSTACLE, posX := 0.5, posY := 0.8, posZ := 20, active := true }

/-- The item identifiers handled by `buyItem`: `EXCHANGE` plus the thirteen
cases of its blocking checks and purchase `switch`. -/
def recognizedItemTypes : List String :=
  ["EXCHANGE", "HEAL", "MAX_LIFE", "SHIELD", "MAGNET", "DOUBLE_JUMP", "IMMORTAL",
   "TIME_WARP", "GEM_BOOSTER", "LUCK_CHARM", "SONIC_BLAST", "DRONE", "REVIVE", "DISCOUNT"]

/-- A store operation in a purchase/damage sequence. -/
inductive StoreOp where
  | buy (itemType : String) (cost : ℚ)
  | damage

/-- Apply one store operation to the state. -/
def applyOp (s : GameState) : StoreOp → GameState
  | StoreOp.buy itemType cost => (buyItem s itemType cost).1
  | StoreOp.damage => takeDamage s

/-- Run a sequence of store operations from a state. -/
def runOps (s : GameState) (ops : List StoreOp) : GameState :=
  ops.foldl applyOp s

/-- A concrete playing state used to instantiate the theorems (the non-cheat
initial state of `startGame`, with an arbitrary base speed of 20). -/
def baseState : GameState :=
  { status := GameStatus.PLAYING, gameMode := GameMode.NORMAL,
    targetLevels := TargetLevels.finite 5, score := 0, currency := 0, lives := 3, maxLives := 3,
    speed := 20, collectedLetters := [], level := 1, laneCount := 3, gemsCollected := 0,
    hasDoubleJump := false, hasImmortality := false, isImmortalityActive := false,
    isShopInvincible := false, magnetLevel := 0, shieldCount := 0, hasTimeWarp := false,
    hasGemBooster := false, hasLuckCharm := false, hasSonicBlast := false, hasDrone := false,
    hasRevive := false, hasDiscount := false }

/-! ## Theorems -/

/-- C1: `takeDamage` is a no-op under CHEAT mode, active immortality or
shop-grace invincibility; otherwise it consumes one shield if any is held
(changing nothing else); otherwise with more than one life it decrements
`lives`; on the last life it consumes a held revive charge (full heal,
immortality flag set, status unchanged — in particular it stays PLAYING);
with no revive charge it zeroes `lives` and `speed` and transitions to
VICTORY in endless mode and GAME_OVER otherwise. -/
theorem takeDamage_spec (s : GameState) :
    ((s.gameMode = GameMode.CHEAT ∨ s.isImmortalityActive = true ∨ s.isShopInvincible = true) →
      takeDamage s = s) ∧
    (s.gameMode ≠ GameMode.CHEAT → s.isImmortalityActive = false → s.isShopInvincible = false →
      0 < s.shieldCount →
      takeDamage s = { s with shieldCount := s.shieldCount - 1 }) ∧
    (s.gameMode ≠ GameMode.CHEAT → s.isImmortalityActive = false → s.isShopInvincible = false →
      s.shieldCount = 0 → 1 < s.lives →
      takeDamage s = { s with lives := s.lives - 1 }) ∧
    (s.gameMode ≠ GameMode.CHEAT → s.isImmortalityActive = false → s.isShopInvincible = false →
      s.shieldCount = 0 → s.lives = 1 → s.hasRevive = true →
      takeDamage s = { s with lives := s.maxLives, hasRevive := false,
                              isImmortalityActive := true } ∧
      (takeDamage s).status = s.status) ∧
    (s.gameMode ≠ GameMode.CHEAT → s.isImmortalityActive = false → s.isShopInvincible = false →
      s.shieldCount = 0 → s.lives = 1 → s.hasRevive = false →
      s.targetLevels = TargetLevels.infinite →
      takeDamage s = { s with lives := 0, status := GameStatus.VICTORY, speed := 0 }) ∧
    (s.gameMode ≠ GameMode.CHEAT → s.isImmortalityActive = false → s.isShopInvincible = false →
      s.shieldCount = 0 → s.lives = 1 → s.hasRevive = false →
      s.targetLevels ≠ TargetLevels.infinite →
      takeDamage s = { s with lives := 0, status := GameStatus.GAME_OVER, speed := 0 }) := by
  refine ⟨?_, ?_, ?_, ?_, ?_, ?_⟩ <;> intros <;> simp_all [takeDamage]

/-- C1 witness: on the last life with a revive charge held (lives = 1,
maxLives = 3), `takeDamage` restores full lives, clears the charge and sets
the immortality flag. -/
theorem takeDamage_spec_witness :
    takeDamage { baseState with lives := 1, hasRevive := true } =
      { baseState with lives := 3, hasRevive := false, isImmortalityActive := true } := by
  have h := ((takeDamage_spec { baseState with lives := 1, hasRevive := true }).2.2.2.1
    (by decide) rfl rfl rfl rfl rfl).1
  rw [h]
  simp [baseState]

/-- C2: `collectGem` adds `floor(v * (1 + 0.2*(L-1)) * (2 if booster else 1))`
times 10 to the score, the same final value to the currency, increments the
gem counter, and heals one life exactly when healing-flagged below max
lives — in a single state update. -/
theorem collectGem_spec (s : GameState) (v : ℚ) (isHealing : Bool) (h : 1 ≤ s.level) :
    collectGem s v isHealing =
      { s with
        score := s.score +
          (⌊v * (1 + 0.2 * ((s.level : ℚ) - 1)) * (if s.hasGemBooster then 2 else 1)⌋ : ℚ) * 10
        currency := s.currency +
          (⌊v * (1 + 0.2 * ((s.level : ℚ) - 1)) * (if s.hasGemBooster then 2 else 1)⌋ : ℚ)
        gemsCollected := s.gemsCollected + 1
        lives := if isHealing = true ∧ s.lives < s.maxLives then s.lives + 1 else s.lives } := by
  have harg : v * (1 + ((s.level : ℚ) - 1) * 0.2) * (if s.hasGemBooster = true then 2 else 1) =
      v * (1 + 0.2 * ((s.level : ℚ) - 1)) * (if s.hasGemBooster = true then 2 else 1) := by
    split <;> ring
  simp only [collectGem]
  rw [harg]
  split <;> simp_all

/-- C2 witness: `collectGem(10, false)` at level 3 with the gem booster owned
adds 280 to the score and 28 to the currency. -/
theorem collectGem_spec_witness :
    (collectGem { baseState with level := 3, hasGemBooster := true } 10 false).score =
      ({ baseState with level := 3, hasGemBooster := true } : GameState).score + 280 ∧
    (collectGem { baseState with level := 3, hasGemBooster := true } 10 false).currency =
      ({ baseState with level := 3, hasGemBooster := true } : GameState).currency + 28 := by
  have h := collectGem_spec { baseState with level := 3, hasGemBooster := true } 10 false
    (by decide)
  rw [h]
  norm_num [baseState]

/-- C3: `collectLetter` ignores an already-collected index; otherwise it
appends the index and raises speed by 2.5 percent of the base run speed, and
when this completes the 6-member set it advances the level (endless mode or
more levels remaining) or else ends the run as VICTORY with a 10000-point
bonus. -/
theorem collectLetter_spec (runSpeedBase : ℚ) (s : GameState) (idx : ℤ) :
    (idx ∈ s.collectedLetters → collectLetter runSpeedBase s idx = s) ∧
    (idx ∉ s.collectedLetters →
      (s.collectedLetters.length + 1 ≠ 6 →
        collectLetter runSpeedBase s idx =
          { s with collectedLetters := s.collectedLetters ++ [idx],
                   speed := s.speed + runSpeedBase * 0.025 }) ∧
      (s.collectedLetters.length + 1 = 6 →
        ((s.targetLevels = TargetLevels.infinite ∨ s.targetLevels.levelBelow s.level = true) →
          collectLetter runSpeedBase s idx =
            advanceLevel runSpeedBase
              { s with collectedLetters := s.collectedLetters ++ [idx],
                       speed := s.speed + runSpeedBase * 0.025 }) ∧
        (s.targetLevels ≠ TargetLevels.infinite → s.targetLevels.levelBelow s.level = false →
          (collectLetter runSpeedBase s idx).status = GameStatus.VICTORY ∧
          (collectLetter runSpeedBase s idx).score = s.score + 10000 ∧
          (collectLetter runSpeedBase s idx).speed = s.speed + runSpeedBase * 0.025 ∧
          (collectLetter runSpeedBase s idx).collectedLetters = s.collectedLetters ++ [idx]))) := by
  refine ⟨fun hmem => by simp [collectLetter, hmem], fun hmem =>
    ⟨fun hlen => ?_, fun hlen => ⟨fun hgo => ?_, fun hfin hbelow => ?_⟩⟩⟩
  · simp [collectLetter, hmem, GEMINI_TARGET, hlen]
  · simp [collectLetter, hmem, GEMINI_TARGET, hlen, hgo]
  · simp [collectLetter, hmem, GEMINI_TARGET, hlen, hfin, hbelow]

/-- C3 witness: with `targetLevels = 5`, five letters already collected at
level 5, collecting the sixth yields VICTORY and exactly 10000 bonus points
on top of the letter's own speed effect. -/
theorem collectLetter_spec_witness :
    (collectLetter 20 { baseState with level := 5, collectedLetters := [0, 1, 2, 3, 4] } 5).status
      = GameStatus.VICTORY ∧
    (collectLetter 20 { baseState with level := 5, collectedLetters := [0, 1, 2, 3, 4] } 5).score
      = ({ baseState with level := 5, collectedLetters := [0, 1, 2, 3, 4] } : GameState).score
        + 10000 ∧
    (collectLetter 20 { baseState with level := 5, collectedLetters := [0, 1, 2, 3, 4] } 5).speed
      = ({ baseState with level := 5, collectedLetters := [0, 1, 2, 3, 4] } : GameState).speed
        + 20 * 0.025 := by
  have h := ((collectLetter_spec 20
      { baseState with level := 5, collectedLetters := [0, 1, 2, 3, 4] } 5).2
    (by decide)).2 (by decide)
  have h2 := h.2 (by decide) (by decide)
  exact ⟨h2.1, h2.2.1, h2.2.2.1⟩

/-- C7: `buyItem` with type `EXCHANGE` and positive currency converts all
currency to score at 100:1 and returns true regardless of the cost argument;
with zero currency it returns false and changes nothing. -/
theorem buyItem_exchange (s : GameState) (cost : ℚ) :
    (0 < s.currency →
      buyItem s "EXCHANGE" cost =
        ({ s with score := s.score + s.currency * 100, currency := 0 }, true)) ∧
    (s.currency = 0 → buyItem s "EXCHANGE" cost = (s, false)) := by
  constructor <;> intro h <;> simp_all [buyItem]

/-- C7 witness: exchanging with currency = 500 adds exactly 50000 to the
score, zeroes the currency and succeeds. -/
theorem buyItem_exchange_witness :
    (buyItem { baseState with currency := 500 } "EXCHANGE" 3).1.score = 50000 ∧
    (buyItem { baseState with currency := 500 } "EXCHANGE" 3).1.currency = 0 ∧
    (buyItem { baseState with currency := 500 } "EXCHANGE" 3).2 = true := by
  have h := (buyItem_exchange { baseState with currency := 500 } 3).1 (by norm_num [baseState])
  rw [h]
  norm_num [baseState]

/-- C9: for any type string that is neither `EXCHANGE` nor a recognized item
identifier, an affordable `buyItem` call debits the cost, grants nothing,
and still returns true. -/
theorem buyItem_unrecognized (s : GameState) (itemType : String) (cost : ℚ)
    (hr : itemType ∉ recognizedItemTypes) (hc : cost ≤ s.currency) :
    buyItem s itemType cost = ({ s with currency := s.currency - cost }, true) := by
  simp only [recognizedItemTypes, List.mem_cons, List.not_mem_nil, or_false, not_or] at hr
  obtain ⟨h1, h2, h3, h4, h5, h6, h7, h8, h9, h10, h11, h12, h13, h14⟩ := hr
  simp [buyItem, applyPurchase, h1, h2, h3, h4, h5, h6, h7, h8, h9, h10, h11, h12, h13, h14, hc]

/-- C9 witness: buying the unknown type `PLASMA_CANNON` at cost 40 with
currency 100 debits 40, reports success, and the resulting state differs
from the input only in currency. -/
theorem buyItem_unrecognized_witness :
    buyItem { baseState with currency := 100 } "PLASMA_CANNON" 40 =
      ({ baseState with currency := 60 }, true) := by
  have h := buyItem_unrecognized { baseState with currency := 100 } "PLASMA_CANNON" 40
    (by decide) (by norm_num [baseState])
  rw [h]
  norm_num [baseState]

/-- C10: `collectLetter` performs no range validation on its index: any
integer index not yet collected — negative or at least 6 included — is
appended, grants the speed increase, and counts toward the 6-member
completion check that triggers the level advance or VICTORY. -/
theorem collectLetter_anyIndex (runSpeedBase : ℚ) (s : GameState) (idx : ℤ)
    (h : idx ∉ s.collectedLetters) :
    (s.collectedLetters.length + 1 ≠ 6 →
      collectLetter runSpeedBase s idx =
        { s with collectedLetters := s.collectedLetters ++ [idx],
                 speed := s.speed + runSpeedBase * 0.025 }) ∧
    (s.collectedLetters.length + 1 = 6 →
      ((s.targetLevels = TargetLevels.infinite ∨ s.targetLevels.levelBelow s.level = true) →
        collectLetter runSpeedBase s idx =
          advanceLevel runSpeedBase
            { s with collectedLetters := s.collectedLetters ++ [idx],
                     speed := s.speed + runSpeedBase * 0.025 }) ∧
      (s.targetLevels ≠ TargetLevels.infinite → s.targetLevels.levelBelow s.level = false →
        (collectLetter runSpeedBase s idx).status = GameStatus.VICTORY ∧
        (collectLetter runSpeedBase s idx).score = s.score + 10000)) := by
  refine ⟨fun hlen => ?_, fun hlen => ⟨fun hgo => ?_, fun hfin hbelow => ?_⟩⟩
  · simp [collectLetter, h, GEMINI_TARGET, hlen]
  · simp [collectLetter, h, GEMINI_TARGET, hlen, hgo]
  · simp [collectLetter, h, GEMINI_TARGET, hlen, hfin, hbelow]

/-- C10 witness: the out-of-range indices 9 and -3 sit in the collected set
and the negative index -7 is accepted as the sixth member, triggering the
level advance (level 2 to 3, letter set cleared). -/
theorem collectLetter_anyIndex_witness :
    (collectLetter 20 { baseState with level := 2, collectedLetters := [0, 1, 9, -3, 4] }
        (-7)).level = 3 ∧
    (collectLetter 20 { baseState with level := 2, collectedLetters := [0, 1, 9, -3, 4] }
        (-7)).collectedLetters = [] := by
  have h := ((collectLetter_anyIndex 20
      { baseState with level := 2, collectedLetters := [0, 1, 9, -3, 4] } (-7)
      (by decide)).2 (by decide)).1 (Or.inr (by decide))
  rw [h]
  constructor <;> rfl

/-- Any branch of the purchase switch leaves `magnetLevel` either unchanged
or clamped through `min (· + 1) 5`, and `shieldCount` either unchanged or
clamped through `min (· + 1) 3`; combined with the blocking checks this
keeps both within their caps. -/
lemma buyItem_magnet_shield_le (s : GameState) (itemType : String) (cost : ℚ)
    (hm : s.magnetLevel ≤ 5) (hs : s.shieldCount ≤ 3) :
    (buyItem s itemType cost).1.magnetLevel ≤ 5 ∧
    (buyItem s itemType cost).1.shieldCount ≤ 3 := by
  by_cases hrec : itemType ∈ recognizedItemTypes
  · simp only [recognizedItemTypes, List.mem_cons, List.not_mem_nil, or_false] at hrec
    rcases hrec with rfl | rfl | rfl | rfl | rfl | rfl | rfl |
      rfl | rfl | rfl | rfl | rfl | rfl | rfl <;>
      simp [buyItem, applyPurchase] <;> split_ifs <;> simp_all
  · simp only [recognizedItemTypes, List.mem_cons, List.not_mem_nil, or_false, not_or] at hrec
    obtain ⟨h1, h2, h3, h4, h5, h6, h7, h8, h9, h10, h11, h12, h13, h14⟩ := hrec
    simp [buyItem, applyPurchase, h1, h2, h3, h4, h5, h6, h7, h8, h9, h10, h11, h12, h13, h14]
    split_ifs <;> exact ⟨hm, hs⟩

/-- `takeDamage` never touches `magnetLevel` and never increases
`shieldCount`. -/
lemma takeDamage_magnet_shield (s : GameState) :
    (takeDamage s).magnetLevel = s.magnetLevel ∧
    (takeDamage s).shieldCount ≤ s.shieldCount := by
  unfold takeDamage
  split_ifs <;> simp_all

/-- The clamping invariant is preserved by every purchase/damage sequence. -/
lemma runOps_magnet_shield_inv (ops : List StoreOp) :
    ∀ s : GameState, s.magnetLevel ≤ 5 → s.shieldCount ≤ 3 →
      (runOps s ops).magnetLevel ≤ 5 ∧ (runOps s ops).shieldCount ≤ 3 := by
  induction ops with
  | nil => exact fun s hm hs => ⟨hm, hs⟩
  | cons op rest ih =>
    intro s hm hs
    cases op with
    | buy itemType cost =>
      have h := buyItem_magnet_shield_le s itemType cost hm hs
      exact ih _ h.1 h.2
    | damage =>
      have h := takeDamage_magnet_shield s
      exact ih _ (h.1 ▸ hm) (le_trans h.2 hs)

/-- C8: starting from `magnetLevel ≤ 5` and `shieldCount ≤ 3` (both are
naturals, so never negative), every sequence of `buyItem` and `takeDamage`
calls keeps `magnetLevel` in [0,5] and `shieldCount` in [0,3]; a MAGNET
purchase at `magnetLevel ≥ 5` and a SHIELD purchase at `shieldCount ≥ 3` are
rejected with no state change; `takeDamage` never increases the shield
count. -/
theorem magnet_shield_clamped (s : GameState) (ops : List StoreOp)
    (hm : s.magnetLevel ≤ 5) (hs : s.shieldCount ≤ 3) :
    ((runOps s ops).magnetLevel ≤ 5 ∧ (runOps s ops).shieldCount ≤ 3) ∧
    (∀ cost : ℚ, 5 ≤ s.magnetLevel → buyItem s "MAGNET" cost = (s, false)) ∧
    (∀ cost : ℚ, 3 ≤ s.shieldCount → buyItem s "SHIELD" cost = (s, false)) ∧
    (takeDamage s).shieldCount ≤ s.shieldCount := by
  refine ⟨runOps_magnet_shield_inv ops s hm hs, ?_, ?_, (takeDamage_magnet_shield s).2⟩
  · intro cost h
    simp [buyItem, h]
  · intro cost h
    simp [buyItem, h]

/-- C8 witness: at the caps (magnet 5, shields 3), a four-operation sequence
keeps both fields within bounds, and the individual MAGNET and SHIELD
purchases are rejected unchanged. -/
theorem magnet_shield_clamped_witness :
    ((runOps { baseState with magnetLevel := 5, shieldCount := 3 }
        [StoreOp.buy "MAGNET" 0, StoreOp.buy "SHIELD" 0, StoreOp.damage,
         StoreOp.buy "MAGNET" 10]).magnetLevel ≤ 5 ∧
     (runOps { baseState with magnetLevel := 5, shieldCount := 3 }
        [StoreOp.buy "MAGNET" 0, StoreOp.buy "SHIELD" 0, StoreOp.damage,
         StoreOp.buy "MAGNET" 10]).shieldCount ≤ 3) ∧
    buyItem { baseState with magnetLevel := 5, shieldCount := 3 } "MAGNET" 10 =
      ({ baseState with magnetLevel := 5, shieldCount := 3 }, false) ∧
    buyItem { baseState with magnetLevel := 5, shieldCount := 3 } "SHIELD" 10 =
      ({ baseState with magnetLevel := 5, shieldCount := 3 }, false) := by
  have h := magnet_shield_clamped { baseState with magnetLevel := 5, shieldCount := 3 }
    [StoreOp.buy "MAGNET" 0, StoreOp.buy "SHIELD" 0, StoreOp.damage, StoreOp.buy "MAGNET" 10]
    (by decide) (by decide)
  exact ⟨h.1, h.2.1 10 (by decide), h.2.2.1 10 (by decide)⟩

/-- C4 counterexample: at level 1 the spawn planner's obstacle-path
threshold is 22 percent, not the claimed 20 percent. -/
theorem obstacleProb_level1_not_20pct :
    obstacleProb 1 false ≠ 1/5 ∧ obstacleProb 1 false = 11/50 := by
  constructor <;> norm_num [obstacleProb]

/-- C4 (amended): the obstacle-path threshold is `0.20 + 0.02 * level` —
22 percent at level 1, rising 2 percentage points per level — capped at
60 percent, and the (capped) threshold is multiplied by 0.8 when the
luck-charm ability is owned. -/
theorem obstacleProb_spec (level : ℕ) :
    (obstacleProb 1 false = 11/50) ∧
    (level ≤ 19 → obstacleProb level false = 1/5 + (level : ℚ) * (1/50)) ∧
    (20 ≤ level → obstacleProb level false = 3/5) ∧
    (obstacleProb level true = 4/5 * obstacleProb level false) := by
  refine ⟨by norm_num [obstacleProb], fun h => ?_, fun h => ?_, ?_⟩
  · have hq : (level : ℚ) ≤ 19 := by exact_mod_cast h
    unfold obstacleProb
    simp only [Bool.false_eq_true, if_false]
    rw [min_eq_right (by norm_num; linarith)]
    norm_num
  · have hq : (20 : ℚ) ≤ (level : ℚ) := by exact_mod_cast h
    unfold obstacleProb
    simp only [Bool.false_eq_true, if_false]
    rw [min_eq_left (by norm_num; linarith)]
    norm_num
  · unfold obstacleProb
    simp only [if_true]
    rw [mul_comm]
    norm_num

/-- C4 witness: the formula evaluated at level 1 (22 percent, and 4/5 of
that with the luck charm) and at level 25 (capped at 60 percent). -/
theorem obstacleProb_spec_witness :
    obstacleProb 1 false = 1/5 + 1 * (1/50) ∧
    obstacleProb 25 false = 3/5 ∧
    obstacleProb 1 true = 4/5 * obstacleProb 1 false := by
  refine ⟨?_, ?_, (obstacleProb_spec 1).2.2.2⟩
  · have h := (obstacleProb_spec 1).2.1 (by norm_num)
    simpa using h
  · exact (obstacleProb_spec 25).2.2.1 (by norm_num)

/-- A processed entity is returned either untouched or with only its
`active` flag cleared. -/
lemma collideAndEvict_obj (removeDist px py pz prevZ : ℚ) (obj : GameObject) :
    (collideAndEvict removeDist px py pz prevZ obj).obj = obj ∨
    (collideAndEvict removeDist px py pz prevZ obj).obj = { obj with active := false } := by
  unfold collideAndEvict
  split_ifs <;> (try simp) <;> split_ifs <;> simp

/-- An entity that enters the pass inactive is returned untouched, is never
collision-tested (no hit), and is kept exactly while inside the removal
boundary. -/
lemma collideAndEvict_inactive (removeDist px py pz prevZ : ℚ) (obj : GameObject)
    (h : obj.active = false) :
    (collideAndEvict removeDist px py pz prevZ obj).obj = obj ∧
    (collideAndEvict removeDist px py pz prevZ obj).hit = false ∧
    ((collideAndEvict removeDist px py pz prevZ obj).keep = true ↔ obj.posZ ≤ removeDist) := by
  unfold collideAndEvict
  split_ifs <;> simp_all [not_lt, not_le]

/-- For every non-portal entity, active or not, hit or not, the keep
decision is exactly the removal-boundary test. -/
lemma collideAndEvict_keep_iff (removeDist px py pz prevZ : ℚ) (obj : GameObject)
    (h : obj.type ≠ ObjectType.SHOP_PORTAL) :
    ((collideAndEvict removeDist px py pz prevZ obj).keep = true ↔ obj.posZ ≤ removeDist) := by
  unfold collideAndEvict
  split_ifs <;> (try simp_all [not_lt, not_le]) <;> split_ifs <;> simp_all [not_lt, not_le]

/-- Hit characterization for hazard entities, and deactivation on hit. -/
lemma collideAndEvict_hazard (removeDist px py pz prevZ : ℚ) (obj : GameObject)
    (hHaz : isDamageSource obj.type = true) :
    ((collideAndEvict removeDist px py pz prevZ obj).hit = true ↔
      (obj.active = true ∧ prevZ < pz + 2 ∧ pz - 2 < obj.posZ ∧ |obj.posX - px| < 0.9 ∧
        py < hazardVertTop obj ∧ hazardVertBottom obj < py + 1.8)) ∧
    ((collideAndEvict removeDist px py pz prevZ obj).hit = true →
      (collideAndEvict removeDist px py pz prevZ obj).obj = { obj with active := false }) := by
  have hport : ¬ obj.type = ObjectType.SHOP_PORTAL := by
    cases h : obj.type <;> simp_all [isDamageSource]
  unfold collideAndEvict
  simp only [hazardVertTop, hazardVertBottom]
  split_ifs <;> simp_all [isDamageSource]

/-- C5 counterexample: an obstacle hit during the tick (one `player-hit`
event) is deactivated but still present in the registry at the end of the
same tick, because its travel position has not passed the removal
boundary. -/
theorem deactivated_entity_still_in_registry :
    (tickRegistry 15 0 0 0 4 0 [c5Obstacle]).2 = 1 ∧
    (tickRegistry 15 0 0 0 4 0 [c5Obstacle]).1 =
      [{ c5Obstacle with posZ := 1, active := false }] := by
  norm_num [tickRegistry, moveEntity, collideAndEvict, c5Obstacle, isDamageSource,
    OBSTACLE_HEIGHT]
  exact ⟨rfl, rfl⟩

/-- C5 (amended): an entity that is inactive at the start of the pass is
never collision-tested against the player (no hit, no change); and for
every non-portal entity the end-of-tick removal decision is exactly the
trailing-boundary test — an entity deactivated by a hit or collection this
tick stays in the registry until its position passes the boundary. -/
theorem inactive_entities_spec (removeDist px py pz prevZ : ℚ) (obj : GameObject) :
    (obj.active = false →
      (collideAndEvict removeDist px py pz prevZ obj).obj = obj ∧
      (collideAndEvict removeDist px py pz prevZ obj).hit = false ∧
      ((collideAndEvict removeDist px py pz prevZ obj).keep = true ↔
        obj.posZ ≤ removeDist)) ∧
    (obj.type ≠ ObjectType.SHOP_PORTAL →
      ((collideAndEvict removeDist px py pz prevZ obj).keep = true ↔
        obj.posZ ≤ removeDist)) :=
  ⟨fun h => collideAndEvict_inactive removeDist px py pz prevZ obj h,
   fun h => collideAndEvict_keep_iff removeDist px py pz prevZ obj h⟩

/-- C5 witness: an inactive gem behind the player is not collision-tested
and is kept while inside the removal boundary. -/
theorem inactive_entities_spec_witness :
    (collideAndEvict 15 0 0 0 (-1) inactiveGem).hit = false ∧
    (collideAndEvict 15 0 0 0 (-1) inactiveGem).keep = true := by
  have h := (inactive_entities_spec 15 0 0 0 (-1) inactiveGem).1 rfl
  exact ⟨h.2.1, h.2.2.mpr (by norm_num [inactiveGem])⟩

/-- C6: a hazard entity registers a hit exactly when it is active, its
travel positions satisfy the swept window `prevZ < playerZ + 2` and
`newZ > playerZ - 2`, its lateral distance to the player is below 0.9, and
its type-specific vertical extent overlaps the player's; the hit clears the
`active` flag, so no later pass can register a second hit on the entity. -/
theorem hazard_hit_spec (removeDist px py pz prevZ : ℚ) (obj : GameObject)
    (hHaz : isDamageSource obj.type = true) :
    ((collideAndEvict removeDist px py pz prevZ obj).hit = true ↔
      (obj.active = true ∧ prevZ < pz + 2 ∧ pz - 2 < obj.posZ ∧
        |obj.posX - px| < 0.9 ∧ py < hazardVertTop obj ∧
        hazardVertBottom obj < py + 1.8)) ∧
    ((collideAndEvict removeDist px py pz prevZ obj).hit = true →
      (collideAndEvict removeDist px py pz prevZ obj).obj.active = false) ∧
    (∀ removeDist2 px2 py2 pz2 prevZ2 : ℚ,
      (collideAndEvict removeDist px py pz prevZ obj).hit = true →
      (collideAndEvict removeDist2 px2 py2 pz2 prevZ2
        (collideAndEvict removeDist px py pz prevZ obj).obj).hit = false) := by
  obtain ⟨hiff, hobj⟩ := collideAndEvict_hazard removeDist px py pz prevZ obj hHaz
  refine ⟨hiff, fun hh => ?_, fun r2 x2 y2 z2 p2 hh => ?_⟩
  · simp [hobj hh]
  · have h2 := collideAndEvict_inactive r2 x2 y2 z2 p2
      ((collideAndEvict removeDist px py pz prevZ obj).obj) (by simp [hobj hh])
    exact h2.2.1

/-- C6 witness: an obstacle whose travel position jumped from -30 to 20 in
one tick (crossing the player's plane entirely) still registers a hit via
the swept window, and the deactivated entity registers none on a second
pass. -/
theorem hazard_hit_spec_witness :
    (collideAndEvict 100 0 0 0 (-30) c6Obstacle).hit = true ∧
    (collideAndEvict 100 0 0 0 (-25)
      (collideAndEvict 100 0 0 0 (-30) c6Obstacle).obj).hit = false := by
  have h := hazard_hit_spec 100 0 0 0 (-30) c6Obstacle rfl
  have hhit : (collideAndEvict 100 0 0 0 (-30) c6Obstacle).hit = true :=
    h.1.mpr (by norm_num [c6Obstacle, hazardVertTop, hazardVertBottom, OBSTACLE_HEIGHT, abs_lt])
  exact ⟨hhit, h.2.2 100 0 0 0 (-25) hhit⟩

end GeminiRunner
